import Mathlib

/-!
Verification of the stale-attachments doctor check
(`internal/doctor/stale_check.go`).

Shallow embedding conventions:
* `time.Time` and `time.Duration` are modelled as `Int` (nanoseconds);
  the zero `time.Time{}` is `0`; `t.Before(u)` is `t < u`;
  `time.Since(t)` with the scan clock at `now` is `now - t`.
* Go `(value, error)` pairs are `Except String value` when the value is
  unused on error, and `Int × Option String` for `parseTimestamp`, whose
  Go version returns the zero time together with the error.
* External collaborators (the beads store, `filepath.Glob`, `discoverRigs`,
  `beads.ParseAttachmentFields`, `formatDuration`, the three `time.Parse`
  layouts) are not part of the shown source; they are abstracted as the
  fields of a `World` record, so every theorem quantifies over their
  behaviour.
-/

namespace Gastown

/-- A beads issue record, with the fields the check consumes
(`{ID, Title, Assignee, Status, UpdatedAt}`). -/
structure Issue where
  ID : String
  Title : String
  Assignee : String
  Status : String
  UpdatedAt : String
deriving DecidableEq

/-- The result of `beads.ParseAttachmentFields`: the embedded attachment
reference of a pinned bead. -/
structure Attachment where
  AttachedMolecule : String
deriving DecidableEq

/-- Result statuses (`StatusOK`, `StatusWarning`, `StatusError`). -/
inductive CheckStatus where
  | StatusOK
  | StatusWarning
  | StatusError
deriving DecidableEq

/-- A `CheckResult`; missing fields default to the Go zero values. -/
structure CheckResult where
  Name : String
  Status : CheckStatus
  Message : String
  Details : List String := []
  FixHint : String := ""
deriving DecidableEq

/-- A single stale-attachment finding (`StaleAttachment`). -/
structure StaleAttachment where
  Rig : String
  PinnedBeadID : String
  PinnedTitle : String
  Assignee : String
  MoleculeID : String
  MoleculeTitle : String
  LastUpdated : Int
  StaleDuration : Int
deriving DecidableEq

/-- The behaviour of one beads client (`beads.New(parentDir)`): the result
of `bd.List` filtered to pinned beads, and `bd.Show` by molecule id. -/
structure BeadsDB where
  List : Except String (List Issue)
  Show : String → Except String Issue

/-- The three `time.Parse` layouts attempted by `parseTimestamp`, as
abstract partial parsers (Go's `time.Parse` is a stdlib collaborator). -/
structure TimeFormats where
  rfc3339 : String → Option Int
  noTZ : String → Option Int
  dateOnly : String → Option Int

/-- All external collaborators the check calls, keyed where the source
keys them: globs by the pattern root, stores by the `.beads` path. -/
structure World where
  /-- `discoverRigs(townRoot)`. -/
  discoverRigs : Except String (List String)
  /-- `filepath.Glob(filepath.Join(rigPath, "polecats", "*", ".beads"))`. -/
  globPolecats : String → Except String (List String)
  /-- `filepath.Glob(filepath.Join(rigPath, "crew", "*", ".beads"))`. -/
  globCrew : String → Except String (List String)
  /-- `beads.New(filepath.Dir(beadsDir))`, keyed by `beadsDir`. -/
  store : String → BeadsDB
  /-- `beads.ParseAttachmentFields`. -/
  parseAttachmentFields : Issue → Option Attachment
  /-- `filepath.Base(filepath.Dir(beadsPath))`: the worker name. -/
  parentBase : String → String
  /-- `formatDuration`. -/
  formatDuration : Int → String
  /-- The `time.Parse` layouts used by `parseTimestamp`. -/
  fmts : TimeFormats

/-- `DefaultStaleThreshold = 1 * time.Hour` (nanoseconds). -/
def DefaultStaleThreshold : Int := 3600000000000

/-- `StaleAttachmentsCheck`, flattening `BaseCheck`. -/
structure StaleAttachmentsCheck where
  CheckName : String
  CheckDescription : String
  Threshold : Int
deriving DecidableEq

/-- `BaseCheck.Name()`. -/
def StaleAttachmentsCheck.Name (c : StaleAttachmentsCheck) : String :=
  c.CheckName

/-- `NewStaleAttachmentsCheckWithThreshold`. -/
def NewStaleAttachmentsCheckWithThreshold (threshold : Int) : StaleAttachmentsCheck :=
  { CheckName := "stale-attachments"
    CheckDescription := "Check for attached molecules that haven\x27t been updated in too long"
    Threshold := threshold }

/-- `NewStaleAttachmentsCheck`. -/
def NewStaleAttachmentsCheck : StaleAttachmentsCheck :=
  NewStaleAttachmentsCheckWithThreshold DefaultStaleThreshold

/-- The invocation context: `CheckContext{TownRoot, RigName}`. -/
structure CheckContext where
  TownRoot : String
  RigName : String

/-- `parseTimestamp`: try RFC3339, then a layout without timezone, then a
date-only layout; on total failure return the zero time and an error. -/
def parseTimestamp (fmts : TimeFormats) (ts : String) : Int × Option String :=
  match fmts.rfc3339 ts with
  | some t => (t, none)
  | none =>
    match fmts.noTZ ts with
    | some t => (t, none)
    | none =>
      match fmts.dateOnly ts with
      | some t => (t, none)
      | none => (0, some ("unable to parse timestamp: " ++ ts))

/-- The per-molecule classification inside the loop of
`checkBeadsDirWithContext` (lines 219-256): fetch the attached molecule,
emit the placeholder finding when the fetch fails, skip on an unparseable
timestamp, and otherwise emit a finding exactly when the molecule is
`in_progress` and was last updated strictly before the cutoff. -/
def moleculeFinding (c : StaleAttachmentsCheck) (db : BeadsDB) (fmts : TimeFormats)
    (cutoff now : Int) (rigName : String) (pinned : Issue) (molID : String) :
    Option StaleAttachment :=
  match db.Show molID with
  | .error _ =>
    some { Rig := rigName
           PinnedBeadID := pinned.ID
           PinnedTitle := pinned.Title
           Assignee := pinned.Assignee
           MoleculeID := molID
           MoleculeTitle := "(molecule not found)"
           LastUpdated := 0
           StaleDuration := (now - cutoff) + c.Threshold }
  | .ok mol =>
    match parseTimestamp fmts mol.UpdatedAt with
    | (_, some _) => none
    | (updatedAt, none) =>
      if mol.Status = "in_progress" ∧ updatedAt < cutoff then
        some { Rig := rigName
               PinnedBeadID := pinned.ID
               PinnedTitle := pinned.Title
               Assignee := pinned.Assignee
               MoleculeID := mol.ID
               MoleculeTitle := mol.Title
               LastUpdated := updatedAt
               StaleDuration := now - updatedAt }
      else none

/-- The `for _, pinned := range pinnedIssues` loop of
`checkBeadsDirWithContext` (lines 210-257): skip anchors with no (or an
empty) attachment reference, count the rest, and collect findings. -/
def checkBeadsLoop (c : StaleAttachmentsCheck) (db : BeadsDB)
    (pa : Issue → Option Attachment) (fmts : TimeFormats)
    (cutoff now : Int) (rigName : String) :
    List Issue → List StaleAttachment × Nat
  | [] => ([], 0)
  | pinned :: rest =>
    let tail := checkBeadsLoop c db pa fmts cutoff now rigName rest
    match pa pinned with
    | none => tail
    | some attachment =>
      if attachment.AttachedMolecule = "" then tail
      else
        match moleculeFinding c db fmts cutoff now rigName pinned
            attachment.AttachedMolecule with
        | some f => (f :: tail.1, tail.2 + 1)
        | none => (tail.1, tail.2 + 1)

/-- `checkBeadsDirWithContext`: list the pinned beads of the store at
`beadsDir` (failing fast if listing fails) and run the anchor loop.
The `workerName` argument is accepted, as in the source, but unused. -/
def checkBeadsDirWithContext (c : StaleAttachmentsCheck) (w : World)
    (beadsDir : String) (cutoff now : Int) (rigName workerName : String) :
    Except String (List StaleAttachment × Nat) :=
  let db := w.store beadsDir
  match db.List with
  | .error e => .error e
  | .ok pinnedIssues =>
    .ok (checkBeadsLoop c db w.parseAttachmentFields w.fmts cutoff now rigName
      pinnedIssues)

/-- `checkBeadsDir`: the town-level scan, with empty rig and worker. -/
def checkBeadsDir (c : StaleAttachmentsCheck) (w : World)
    (beadsDir : String) (cutoff now : Int) :
    Except String (List StaleAttachment × Nat) :=
  checkBeadsDirWithContext c w beadsDir cutoff now "" ""

/-- The per-store loops of `checkRig` (lines 154-165 and 171-181): scan
each matched `.beads` path, skipping stores whose scan errors.  The
worker label is `kindLabel` (either `""` or `"crew/"`) plus the matched
directory name. -/
def checkStoresLoop (c : StaleAttachmentsCheck) (w : World)
    (cutoff now : Int) (rigName kindLabel : String) :
    List String → List StaleAttachment × Nat
  | [] => ([], 0)
  | beadsPath :: rest =>
    let tail := checkStoresLoop c w cutoff now rigName kindLabel rest
    match checkBeadsDirWithContext c w beadsPath cutoff now rigName
        (kindLabel ++ w.parentBase beadsPath) with
    | .error _ => tail
    | .ok (stale, checked) => (stale ++ tail.1, checked + tail.2)

/-- `checkRig` (lines 140-185): glob the polecat stores — returning the
error if that glob fails — then scan them; then glob the crew stores and,
only when that glob succeeds, scan them too. -/
def checkRig (c : StaleAttachmentsCheck) (w : World)
    (townRoot rigName : String) (cutoff now : Int) :
    Except String (List StaleAttachment × Nat) :=
  let rigPath := townRoot ++ "/" ++ rigName
  match w.globPolecats rigPath with
  | .error e => .error e
  | .ok polecatDirs =>
    let fromPolecats := checkStoresLoop c w cutoff now rigName "" polecatDirs
    match w.globCrew rigPath with
    | .error _ => .ok fromPolecats
    | .ok crewDirs =>
      let fromCrew := checkStoresLoop c w cutoff now rigName "crew/" crewDirs
      .ok (fromPolecats.1 ++ fromCrew.1, fromPolecats.2 + fromCrew.2)

/-- The `for _, rigName := range rigsToCheck` loop of `Run`
(lines 83-91): accumulate per-rig results, skipping rigs whose scan
errors. -/
def rigsLoop (c : StaleAttachmentsCheck) (w : World) (townRoot : String)
    (cutoff now : Int) : List String → List StaleAttachment × Nat
  | [] => ([], 0)
  | rigName :: rest =>
    let tail := rigsLoop c w townRoot cutoff now rest
    match checkRig c w townRoot rigName cutoff now with
    | .error _ => tail
    | .ok (stale, checked) => (stale ++ tail.1, checked + tail.2)

/-- One detail line of the warning report (lines 102-113). -/
def detailLine (w : World) (sa : StaleAttachment) : String :=
  let location := if sa.Rig = "" then "town" else sa.Rig
  let assigneeInfo :=
    if sa.Assignee = "" then "" else " (assignee: " ++ sa.Assignee ++ ")"
  location ++ ": " ++ sa.PinnedTitle ++ " → " ++ sa.MoleculeTitle ++
    assigneeInfo ++ " (stale for " ++ w.formatDuration sa.StaleDuration ++ ")"

/-- The rendering tail of `Run` (lines 100-136), a function of the
accumulated findings and checked count. -/
def renderResult (c : StaleAttachmentsCheck) (w : World)
    (staleAttachments : List StaleAttachment) (checkedCount : Nat) :
    CheckResult :=
  if staleAttachments.length > 0 then
    { Name := c.Name
      Status := .StatusWarning
      Message := toString staleAttachments.length ++
        " stale attachment(s) found (no activity for >" ++
        w.formatDuration c.Threshold ++ ")"
      Details := staleAttachments.map (detailLine w)
      FixHint := "Check if polecats are stuck or crashed. Use \x27gt witness nudge <polecat>\x27 or \x27gt polecat kill <name>\x27 if needed" }
  else if checkedCount = 0 then
    { Name := c.Name
      Status := .StatusOK
      Message := "No attachments to check" }
  else
    { Name := c.Name
      Status := .StatusOK
      Message := "Checked " ++ toString checkedCount ++
        " attachment(s), none stale" }

/-- `Run` (lines 51-137): resolve the rigs to check (a named rig bypasses
discovery; a discovery failure is the only Error result), return OK on
zero rigs, otherwise accumulate over the rigs and the town-level store
and render. -/
def Run (c : StaleAttachmentsCheck) (w : World) (ctx : CheckContext)
    (now : Int) : CheckResult :=
  match (if ctx.RigName ≠ "" then .ok [ctx.RigName] else w.discoverRigs :
      Except String (List String)) with
  | .error e =>
    { Name := c.Name
      Status := .StatusError
      Message := "Failed to discover rigs"
      Details := [e] }
  | .ok rigsToCheck =>
    if rigsToCheck.length = 0 then
      { Name := c.Name
        Status := .StatusOK
        Message := "No rigs configured" }
    else
      let cutoff := now - c.Threshold
      let fromRigs := rigsLoop c w ctx.TownRoot cutoff now rigsToCheck
      let acc :=
        match checkBeadsDir c w (ctx.TownRoot ++ "/.beads") cutoff now with
        | .error _ => fromRigs
        | .ok (townStale, townChecked) =>
          (fromRigs.1 ++ townStale, fromRigs.2 + townChecked)
      renderResult c w acc.1 acc.2

/-- An anchor is counted as checked exactly when its parsed attachment
fields are present with a non-empty `AttachedMolecule`. -/
def hasAttachment (pa : Issue → Option Attachment) (pinned : Issue) : Bool :=
  match pa pinned with
  | none => false
  | some attachment => attachment.AttachedMolecule != ""

/-- Helper: the checked count of the anchor loop is the number of listed
anchors carrying a non-empty attachment reference. -/
theorem checkBeadsLoop_snd_eq_countP (c : StaleAttachmentsCheck) (db : BeadsDB)
    (pa : Issue → Option Attachment) (fmts : TimeFormats)
    (cutoff now : Int) (rigName : String) (l : List Issue) :
    (checkBeadsLoop c db pa fmts cutoff now rigName l).2 =
      l.countP (hasAttachment pa) := by
  induction l with
  | nil => rfl
  | cons pinned rest ih =>
    simp only [checkBeadsLoop]
    cases hpa : pa pinned with
    | none => simpa [List.countP_cons, hasAttachment, hpa] using ih
    | some att =>
      by_cases hm : att.AttachedMolecule = ""
      · simpa [List.countP_cons, hasAttachment, hpa, hm] using ih
      · cases hf : moleculeFinding c db fmts cutoff now rigName pinned
            att.AttachedMolecule with
        | none => simpa [List.countP_cons, hasAttachment, hpa, hm, hf] using ih
        | some f =>
          simpa [List.countP_cons, hasAttachment, hpa, hm, hf] using ih

/-- C7: `parseTimestamp` tries RFC3339, then the offset-free layout, then
the date-only layout, returning the first successful parse; an input
matched by an earlier layout yields that layout's result no matter what
the later layouts would say, and when all three fail it returns the zero
time together with an error. -/
theorem parseTimestamp_priority_order (fmts : TimeFormats) (ts : String) :
    (∀ t, fmts.rfc3339 ts = some t → parseTimestamp fmts ts = (t, none)) ∧
    (∀ t, fmts.rfc3339 ts = none → fmts.noTZ ts = some t →
      parseTimestamp fmts ts = (t, none)) ∧
    (∀ t, fmts.rfc3339 ts = none → fmts.noTZ ts = none →
      fmts.dateOnly ts = some t → parseTimestamp fmts ts = (t, none)) ∧
    (fmts.rfc3339 ts = none → fmts.noTZ ts = none → fmts.dateOnly ts = none →
      parseTimestamp fmts ts =
        (0, some ("unable to parse timestamp: " ++ ts))) := by
  refine ⟨?_, ?_, ?_, ?_⟩ <;> intros <;> simp [parseTimestamp, *]

/-- Concrete format pack whose first two layouts both match every input,
with different results: exercises the priority tie-break. -/
def fmtsPrioW : TimeFormats :=
  { rfc3339 := fun _ => some 100
    noTZ := fun _ => some 200
    dateOnly := fun _ => some 300 }

/-- C7 witness: with all three layouts matching, the RFC3339 result wins. -/
theorem parseTimestamp_priority_order_witness :
    parseTimestamp fmtsPrioW "2024-06-01T00:00:00Z" = (100, none) :=
  (parseTimestamp_priority_order fmtsPrioW "2024-06-01T00:00:00Z").1 100 rfl

/-- C1: for an anchor with a non-empty attachment reference whose molecule
fetch succeeds and whose timestamp parses to `t`, the loop emits a finding
exactly when the molecule's status is `"in_progress"` and `t` is strictly
before the cutoff; the finding's staleness is `now - t`, and any other
status (or a timestamp at/after the cutoff) yields no finding while the
checked count still increments. -/
theorem inProgress_finding_iff (c : StaleAttachmentsCheck) (db : BeadsDB)
    (pa : Issue → Option Attachment) (fmts : TimeFormats)
    (cutoff now : Int) (rigName : String) (pinned mol : Issue)
    (att : Attachment) (t : Int) (rest : List Issue)
    (hpa : pa pinned = some att) (hm : att.AttachedMolecule ≠ "")
    (hshow : db.Show att.AttachedMolecule = .ok mol)
    (hparse : parseTimestamp fmts mol.UpdatedAt = (t, none)) :
    (mol.Status = "in_progress" → t < cutoff →
      checkBeadsLoop c db pa fmts cutoff now rigName (pinned :: rest) =
        ({ Rig := rigName, PinnedBeadID := pinned.ID,
           PinnedTitle := pinned.Title, Assignee := pinned.Assignee,
           MoleculeID := mol.ID, MoleculeTitle := mol.Title,
           LastUpdated := t, StaleDuration := now - t } ::
          (checkBeadsLoop c db pa fmts cutoff now rigName rest).1,
         (checkBeadsLoop c db pa fmts cutoff now rigName rest).2 + 1)) ∧
    (¬ (mol.Status = "in_progress" ∧ t < cutoff) →
      checkBeadsLoop c db pa fmts cutoff now rigName (pinned :: rest) =
        ((checkBeadsLoop c db pa fmts cutoff now rigName rest).1,
         (checkBeadsLoop c db pa fmts cutoff now rigName rest).2 + 1)) := by
  constructor
  · intro hs ht
    simp [checkBeadsLoop, hpa, hm, moleculeFinding, hshow, hparse, hs, ht]
  · intro hns
    simp [checkBeadsLoop, hpa, hm, moleculeFinding, hshow, hparse, hns]

/-- A concrete anchor used by the witnesses. -/
def pinnedW : Issue :=
  { ID := "gt-1", Title := "anchor", Assignee := "alice",
    Status := "pinned", UpdatedAt := "" }

/-- A concrete in-progress molecule used by the witnesses. -/
def molW : Issue :=
  { ID := "mol-1", Title := "work", Assignee := "",
    Status := "in_progress", UpdatedAt := "2024-06-01T00:00:00Z" }

/-- A molecule whose `UpdatedAt` no layout can parse. -/
def molBadW : Issue :=
  { ID := "mol-2", Title := "odd", Assignee := "",
    Status := "in_progress", UpdatedAt := "not-a-date" }

/-- Attachment-field parser that attaches `"mol-1"` to every anchor. -/
def paW : Issue → Option Attachment :=
  fun _ => some { AttachedMolecule := "mol-1" }

/-- Attachment-field parser that never finds attachment fields. -/
def paNoneW : Issue → Option Attachment := fun _ => none

/-- Formats whose first layout parses every input to `100`. -/
def fmtsOkW : TimeFormats :=
  { rfc3339 := fun _ => some 100
    noTZ := fun _ => none
    dateOnly := fun _ => none }

/-- Formats for which every parse attempt fails. -/
def fmtsNoneW : TimeFormats :=
  { rfc3339 := fun _ => none
    noTZ := fun _ => none
    dateOnly := fun _ => none }

/-- A store holding the one anchor, whose molecule fetch succeeds. -/
def dbOkW : BeadsDB := { List := .ok [pinnedW], Show := fun _ => .ok molW }

/-- A store whose molecule fetch yields the unparseable molecule. -/
def dbBadTsW : BeadsDB :=
  { List := .ok [pinnedW], Show := fun _ => .ok molBadW }

/-- A store whose molecule fetch always fails. -/
def dbGoneW : BeadsDB :=
  { List := .ok [pinnedW], Show := fun _ => .error "gone" }

/-- C1 witness: a molecule updated at `100` against cutoff `200` and scan
clock `500` yields one finding, stale for `400`. -/
theorem inProgress_finding_iff_witness :
    checkBeadsLoop NewStaleAttachmentsCheck dbOkW paW fmtsOkW 200 500 "rigA"
        [pinnedW] =
      ([{ Rig := "rigA", PinnedBeadID := "gt-1", PinnedTitle := "anchor",
          Assignee := "alice", MoleculeID := "mol-1", MoleculeTitle := "work",
          LastUpdated := 100, StaleDuration := 400 }], 1) := by
  have h := (inProgress_finding_iff NewStaleAttachmentsCheck dbOkW paW fmtsOkW
    200 500 "rigA" pinnedW molW { AttachedMolecule := "mol-1" } 100 []
    rfl (by decide) rfl rfl).1 rfl (by decide)
  simpa [checkBeadsLoop, pinnedW, molW] using h

/-- C2: for an anchor with a non-empty attachment reference whose molecule
fetch fails, the loop emits exactly one finding for that anchor, with the
fixed placeholder title, zero last-updated time, and staleness synthesized
as `(now - cutoff) + threshold`; with the cutoff `Run` uses this strictly
exceeds every positive threshold. -/
theorem unresolvable_attachment_finding (c : StaleAttachmentsCheck)
    (db : BeadsDB) (pa : Issue → Option Attachment) (fmts : TimeFormats)
    (cutoff now : Int) (rigName : String) (pinned : Issue)
    (att : Attachment) (rest : List Issue) (e : String)
    (hpa : pa pinned = some att) (hm : att.AttachedMolecule ≠ "")
    (hshow : db.Show att.AttachedMolecule = .error e) :
    checkBeadsLoop c db pa fmts cutoff now rigName (pinned :: rest) =
      ({ Rig := rigName, PinnedBeadID := pinned.ID,
         PinnedTitle := pinned.Title, Assignee := pinned.Assignee,
         MoleculeID := att.AttachedMolecule,
         MoleculeTitle := "(molecule not found)", LastUpdated := 0,
         StaleDuration := (now - cutoff) + c.Threshold } ::
        (checkBeadsLoop c db pa fmts cutoff now rigName rest).1,
       (checkBeadsLoop c db pa fmts cutoff now rigName rest).2 + 1) ∧
    (cutoff = now - c.Threshold → 0 < c.Threshold →
      c.Threshold < (now - cutoff) + c.Threshold) := by
  constructor
  · simp [checkBeadsLoop, hpa, hm, moleculeFinding, hshow]
  · rintro rfl hT
    omega

/-- C2 witness: with threshold one hour, cutoff `-3600000000000` and scan
clock `0`, the missing molecule is reported stale for two hours, strictly
more than the threshold. -/
theorem unresolvable_attachment_finding_witness :
    checkBeadsLoop NewStaleAttachmentsCheck dbGoneW paW fmtsOkW
        (-3600000000000) 0 "rigA" [pinnedW] =
      ([{ Rig := "rigA", PinnedBeadID := "gt-1", PinnedTitle := "anchor",
          Assignee := "alice", MoleculeID := "mol-1",
          MoleculeTitle := "(molecule not found)", LastUpdated := 0,
          StaleDuration := 7200000000000 }], 1) ∧
    NewStaleAttachmentsCheck.Threshold <
      (0 - (-3600000000000 : Int)) + NewStaleAttachmentsCheck.Threshold := by
  have h := unresolvable_attachment_finding NewStaleAttachmentsCheck dbGoneW
    paW fmtsOkW (-3600000000000) 0 "rigA" pinnedW
    { AttachedMolecule := "mol-1" } [] "gone" rfl (by decide) rfl
  constructor
  · have h1 := h.1
    simpa [checkBeadsLoop, pinnedW, NewStaleAttachmentsCheck,
      NewStaleAttachmentsCheckWithThreshold, DefaultStaleThreshold] using h1
  · exact h.2 (by decide) (by decide)

/-- C6: for an anchor with a non-empty attachment reference whose molecule
fetch succeeds but whose timestamp fails to parse, the loop emits no
finding for that anchor while the checked count still increments by one. -/
theorem unparseable_timestamp_skip (c : StaleAttachmentsCheck) (db : BeadsDB)
    (pa : Issue → Option Attachment) (fmts : TimeFormats)
    (cutoff now : Int) (rigName : String) (pinned mol : Issue)
    (att : Attachment) (rest : List Issue) (err : String)
    (hpa : pa pinned = some att) (hm : att.AttachedMolecule ≠ "")
    (hshow : db.Show att.AttachedMolecule = .ok mol)
    (hparse : (parseTimestamp fmts mol.UpdatedAt).2 = some err) :
    checkBeadsLoop c db pa fmts cutoff now rigName (pinned :: rest) =
      ((checkBeadsLoop c db pa fmts cutoff now rigName rest).1,
       (checkBeadsLoop c db pa fmts cutoff now rigName rest).2 + 1) := by
  rcases hp : parseTimestamp fmts mol.UpdatedAt with ⟨t, o⟩
  rw [hp] at hparse
  simp only at hparse
  subst hparse
  simp [checkBeadsLoop, hpa, hm, moleculeFinding, hshow, hp]

/-- C6 witness: the anchor whose molecule has `UpdatedAt = "not-a-date"`
produces no finding but is still counted once. -/
theorem unparseable_timestamp_skip_witness :
    checkBeadsLoop NewStaleAttachmentsCheck dbBadTsW paW fmtsNoneW 200 500
        "rigA" [pinnedW] = ([], 1) := by
  have h := unparseable_timestamp_skip NewStaleAttachmentsCheck dbBadTsW paW
    fmtsNoneW 200 500 "rigA" pinnedW molBadW { AttachedMolecule := "mol-1" }
    [] "unable to parse timestamp: not-a-date" rfl (by decide) rfl rfl
  simpa [checkBeadsLoop] using h

/-- C3: (i) whenever a store scan succeeds, its checked count equals the
number of listed pinned anchors with a present, non-empty attachment
reference — independent of how many findings came out; (ii) an anchor
without such a reference contributes neither to the count nor to the
findings: the loop's result is unchanged by dropping it. -/
theorem checked_count_attachments :
    (∀ (c : StaleAttachmentsCheck) (w : World) (beadsDir : String)
        (cutoff now : Int) (rigName workerName : String)
        (l : List Issue) (r : List StaleAttachment × Nat),
      (w.store beadsDir).List = .ok l →
      checkBeadsDirWithContext c w beadsDir cutoff now rigName workerName =
        .ok r →
      r.2 = l.countP (hasAttachment w.parseAttachmentFields)) ∧
    (∀ (c : StaleAttachmentsCheck) (db : BeadsDB)
        (pa : Issue → Option Attachment) (fmts : TimeFormats)
        (cutoff now : Int) (rigName : String) (p : Issue) (l : List Issue),
      hasAttachment pa p = false →
      checkBeadsLoop c db pa fmts cutoff now rigName (p :: l) =
        checkBeadsLoop c db pa fmts cutoff now rigName l) := by
  constructor
  · intro c w beadsDir cutoff now rigName workerName l r hl hres
    simp only [checkBeadsDirWithContext, hl] at hres
    cases hres
    exact checkBeadsLoop_snd_eq_countP c (w.store beadsDir)
      w.parseAttachmentFields w.fmts cutoff now rigName l
  · intro c db pa fmts cutoff now rigName p l h
    cases hpa : pa p with
    | none => simp [checkBeadsLoop, hpa]
    | some att =>
      have hm : att.AttachedMolecule = "" := by
        simpa [hasAttachment, hpa] using h
      simp [checkBeadsLoop, hpa, hm]

/-- C3 witness: an anchor with no attachment fields is invisible to the
loop. -/
theorem checked_count_attachments_witness :
    checkBeadsLoop NewStaleAttachmentsCheck dbOkW paNoneW fmtsOkW 200 500
        "rigA" [pinnedW] =
      checkBeadsLoop NewStaleAttachmentsCheck dbOkW paNoneW fmtsOkW 200 500
        "rigA" [] :=
  checked_count_attachments.2 NewStaleAttachmentsCheck dbOkW paNoneW fmtsOkW
    200 500 "rigA" pinnedW [] rfl

/-- Helper: rendering only ever produces an OK or a Warning status. -/
theorem renderResult_status (c : StaleAttachmentsCheck) (w : World)
    (fs : List StaleAttachment) (n : Nat) :
    (renderResult c w fs n).Status = .StatusOK ∨
      (renderResult c w fs n).Status = .StatusWarning := by
  unfold renderResult
  split
  · exact Or.inr rfl
  · split
    · exact Or.inl rfl
    · exact Or.inl rfl

/-- Helper: rendering never produces the Error status. -/
theorem renderResult_ne_error (c : StaleAttachmentsCheck) (w : World)
    (fs : List StaleAttachment) (n : Nat) :
    ¬ (renderResult c w fs n).Status = .StatusError := by
  rcases renderResult_status c w fs n with h | h <;> simp [h]

/-- C5: the rendered result is a function of the accumulated findings and
checked count alone: any findings yield a Warning whose message states the
count and threshold, one detail line per finding, and the fixed fix hint;
a detail line is location (or `"town"` for an empty rig), anchor title,
molecule title, the assignee clause only when an assignee is present, and
the staleness; no findings with zero checked yields OK
`"No attachments to check"`; no findings with a positive count yields OK
`"Checked N attachment(s), none stale"`. -/
theorem render_result_cases (c : StaleAttachmentsCheck) (w : World) :
    (∀ (fs : List StaleAttachment) (n : Nat), fs ≠ [] →
      renderResult c w fs n =
        { Name := c.Name
          Status := .StatusWarning
          Message := toString fs.length ++
            " stale attachment(s) found (no activity for >" ++
            w.formatDuration c.Threshold ++ ")"
          Details := fs.map (detailLine w)
          FixHint := "Check if polecats are stuck or crashed. Use \x27gt witness nudge <polecat>\x27 or \x27gt polecat kill <name>\x27 if needed" }) ∧
    (∀ sa : StaleAttachment,
      detailLine w sa =
        (if sa.Rig = "" then "town" else sa.Rig) ++ ": " ++ sa.PinnedTitle ++
          " → " ++ sa.MoleculeTitle ++
          (if sa.Assignee = "" then ""
            else " (assignee: " ++ sa.Assignee ++ ")") ++
          " (stale for " ++ w.formatDuration sa.StaleDuration ++ ")") ∧
    (renderResult c w [] 0 =
      { Name := c.Name
        Status := .StatusOK
        Message := "No attachments to check" }) ∧
    (∀ n : Nat, 0 < n →
      renderResult c w [] n =
        { Name := c.Name
          Status := .StatusOK
          Message := "Checked " ++ toString n ++
            " attachment(s), none stale" }) := by
  refine ⟨?_, ?_, ?_, ?_⟩
  · intro fs n hfs
    have hlen : fs.length > 0 := List.length_pos.mpr hfs
    simp [renderResult, hlen]
  · intro sa
    rfl
  · rfl
  · intro n hn
    simp [renderResult, Nat.pos_iff_ne_zero.mp hn]

/-- C5 witness: two checked anchors and no findings render as OK with the
count in the message. -/
theorem render_result_cases_witness :
    renderResult NewStaleAttachmentsCheck
        { discoverRigs := .ok []
          globPolecats := fun _ => .ok []
          globCrew := fun _ => .ok []
          store := fun _ => dbOkW
          parseAttachmentFields := paW
          parentBase := fun _ => "w"
          formatDuration := fun _ => "1h0m0s"
          fmts := fmtsOkW } [] 2 =
      { Name := "stale-attachments"
        Status := .StatusOK
        Message := "Checked 2 attachment(s), none stale" } := by
  have h := (render_result_cases NewStaleAttachmentsCheck
    { discoverRigs := .ok []
      globPolecats := fun _ => .ok []
      globCrew := fun _ => .ok []
      store := fun _ => dbOkW
      parseAttachmentFields := paW
      parentBase := fun _ => "w"
      formatDuration := fun _ => "1h0m0s"
      fmts := fmtsOkW }).2.2.2 2 (by decide)
  rw [h]
  decide

/-- C4: `Run` always returns one structured result, and its status is
Error exactly when no rig name was given and rig discovery itself failed;
in that case the message is `"Failed to discover rigs"` with the
underlying error as the only detail.  Per-rig and per-store errors on
every other path are absorbed. -/
theorem run_error_only_discovery_failure (c : StaleAttachmentsCheck)
    (w : World) (ctx : CheckContext) (now : Int) :
    ((Run c w ctx now).Status = .StatusError ↔
      ctx.RigName = "" ∧ ∃ e, w.discoverRigs = .error e) ∧
    (∀ e, ctx.RigName = "" → w.discoverRigs = .error e →
      Run c w ctx now =
        { Name := c.Name
          Status := .StatusError
          Message := "Failed to discover rigs"
          Details := [e] }) := by
  constructor
  · constructor
    · intro hE
      unfold Run at hE
      split at hE
      · next e heq =>
        split at heq
        · exact absurd heq (by simp)
        · next hnr =>
          exact ⟨not_not.mp hnr, e, heq⟩
      · next rigs heq =>
        split at hE
        · simp at hE
        · exact absurd hE (renderResult_ne_error c w _ _)
    · rintro ⟨hr, e, hd⟩
      simp [Run, hr, hd]
  · intro e hr hd
    simp [Run, hr, hd]

/-- A world whose rig discovery fails. -/
def worldDiscErrW : World :=
  { discoverRigs := .error "boom"
    globPolecats := fun _ => .ok []
    globCrew := fun _ => .ok []
    store := fun _ => dbOkW
    parseAttachmentFields := paW
    parentBase := fun _ => "w"
    formatDuration := fun _ => "1h0m0s"
    fmts := fmtsOkW }

/-- C4 witness: a failed discovery with no rig name yields the Error
result with the fixed message. -/
theorem run_error_only_discovery_failure_witness :
    Run NewStaleAttachmentsCheck worldDiscErrW
        { TownRoot := "t", RigName := "" } 0 =
      { Name := NewStaleAttachmentsCheck.Name
        Status := .StatusError
        Message := "Failed to discover rigs"
        Details := ["boom"] } :=
  (run_error_only_discovery_failure NewStaleAttachmentsCheck worldDiscErrW
    { TownRoot := "t", RigName := "" } 0).2 "boom" rfl rfl

/-- C9: when the context names a rig, discovery is bypassed and `Run`
never returns the Error status: every result is OK or Warning. -/
theorem run_named_rig_never_error (c : StaleAttachmentsCheck) (w : World)
    (ctx : CheckContext) (now : Int) (h : ctx.RigName ≠ "") :
    (Run c w ctx now).Status = .StatusOK ∨
      (Run c w ctx now).Status = .StatusWarning := by
  unfold Run
  rw [if_pos h]
  exact renderResult_status c w _ _

/-- A world where the named rig's polecats glob fails but whose town
store holds one anchor with an unresolvable attachment. -/
def worldCexW : World :=
  { discoverRigs := .ok ["r"]
    globPolecats := fun _ => .error "bad pattern"
    globCrew := fun _ => .ok ["p"]
    store := fun _ => dbGoneW
    parseAttachmentFields := paW
    parentBase := fun _ => "w"
    formatDuration := fun _ => "1h0m0s"
    fmts := fmtsOkW }

/-- C9 witness: `Run` on an explicitly named rig returns OK or Warning
even in a world where both globs and fetches misbehave. -/
theorem run_named_rig_never_error_witness :
    (Run NewStaleAttachmentsCheck worldCexW
        { TownRoot := "t", RigName := "r" } 0).Status = .StatusOK ∨
      (Run NewStaleAttachmentsCheck worldCexW
        { TownRoot := "t", RigName := "r" } 0).Status = .StatusWarning :=
  run_named_rig_never_error NewStaleAttachmentsCheck worldCexW
    { TownRoot := "t", RigName := "r" } 0 (by decide)

/-- C10: with no rig name and a discovery that returns zero rigs, `Run`
returns OK `"No rigs configured"` immediately — for every world with that
discovery result, so the town store is never consulted and contributes
neither findings nor checked anchors. -/
theorem run_no_rigs_short_circuit (c : StaleAttachmentsCheck) (w : World)
    (ctx : CheckContext) (now : Int) (h : ctx.RigName = "")
    (hd : w.discoverRigs = .ok []) :
    Run c w ctx now =
      { Name := c.Name
        Status := .StatusOK
        Message := "No rigs configured" } := by
  simp [Run, h, hd]

/-- A world with zero rigs whose town store nevertheless holds an anchor
with an unresolvable attachment. -/
def worldNoRigsW : World :=
  { discoverRigs := .ok []
    globPolecats := fun _ => .ok []
    globCrew := fun _ => .ok []
    store := fun _ => dbGoneW
    parseAttachmentFields := paW
    parentBase := fun _ => "w"
    formatDuration := fun _ => "1h0m0s"
    fmts := fmtsOkW }

/-- C10 witness: zero discovered rigs short-circuit to OK even though the
town store would have produced a finding. -/
theorem run_no_rigs_short_circuit_witness :
    Run NewStaleAttachmentsCheck worldNoRigsW
        { TownRoot := "t", RigName := "" } 0 =
      { Name := NewStaleAttachmentsCheck.Name
        Status := .StatusOK
        Message := "No rigs configured" } :=
  run_no_rigs_short_circuit NewStaleAttachmentsCheck worldNoRigsW
    { TownRoot := "t", RigName := "" } 0 rfl rfl

/-- C8 counterexample: in `worldCexW` the polecats glob for rig `"r"`
fails, and `checkRig` returns that error — the crew stores are NOT
scanned, although scanning the matched crew store would have produced one
finding and a checked count of one.  The claim's "vice versa" direction is
therefore false on the code. -/
theorem checkRig_polecats_glob_error_drops_crew_cex :
    checkRig NewStaleAttachmentsCheck worldCexW "t" "r" 0 0 =
      .error "bad pattern" ∧
    checkBeadsDirWithContext NewStaleAttachmentsCheck worldCexW "p" 0 0 "r"
        "crew/w" =
      .ok ([{ Rig := "r", PinnedBeadID := "gt-1", PinnedTitle := "anchor",
              Assignee := "alice", MoleculeID := "mol-1",
              MoleculeTitle := "(molecule not found)", LastUpdated := 0,
              StaleDuration := 3600000000000 }], 1) := by
  constructor
  · rfl
  · rfl

/-- C8 (amended): a crew glob failure does not prevent scanning the
polecat stores — their results are still returned — but a polecats glob
failure makes `checkRig` return the error, so the crew stores of that rig
are not scanned. -/
theorem checkRig_glob_error_asymmetry (c : StaleAttachmentsCheck)
    (w : World) (townRoot rigName : String) (cutoff now : Int) :
    (∀ ds e, w.globPolecats (townRoot ++ "/" ++ rigName) = .ok ds →
      w.globCrew (townRoot ++ "/" ++ rigName) = .error e →
      checkRig c w townRoot rigName cutoff now =
        .ok (checkStoresLoop c w cutoff now rigName "" ds)) ∧
    (∀ e, w.globPolecats (townRoot ++ "/" ++ rigName) = .error e →
      checkRig c w townRoot rigName cutoff now = .error e) := by
  constructor
  · intro ds e hp hc
    simp [checkRig, hp, hc]
  · intro e hp
    simp [checkRig, hp]

/-- A world where the crew glob fails but the polecats glob matches one
store with one resolvable, stale anchor. -/
def worldCrewErrW : World :=
  { discoverRigs := .ok ["r"]
    globPolecats := fun _ => .ok ["p"]
    globCrew := fun _ => .error "bad"
    store := fun _ => dbOkW
    parseAttachmentFields := paW
    parentBase := fun _ => "w"
    formatDuration := fun _ => "1h0m0s"
    fmts := fmtsOkW }

/-- C8 witness: with the crew glob failing, the polecat store is still
scanned and its finding returned. -/
theorem checkRig_glob_error_asymmetry_witness :
    checkRig NewStaleAttachmentsCheck worldCrewErrW "t" "r" 200 500 =
      .ok (checkStoresLoop NewStaleAttachmentsCheck worldCrewErrW 200 500 "r"
        "" ["p"]) :=
  (checkRig_glob_error_asymmetry NewStaleAttachmentsCheck worldCrewErrW "t"
    "r" 200 500).1 ["p"] "bad" rfl rfl

end Gastown
